import Mathlib

/-!
Shallow embedding of the CS5368 ASoC codec driver control plane
(src/sound/soc/codecs/cs5368.c) together with a model of the regmap /
regcache layer it is built on.  The driver source is translated
definition by definition; the regmap layer (drivers/base/regmap, not
part of the sources given here) is modelled from the specification's
description of the Register Store.
-/

namespace CS5368

/-! Register addresses, cs5368.c lines 35-48. -/

def REG_REVI : Nat := 0x00
def REG_GCTL : Nat := 0x01
def REG_OVFL : Nat := 0x02
def REG_OVFM : Nat := 0x03
def REG_HPF : Nat := 0x04
def REG_RSVD1 : Nat := 0x05
def REG_PDN : Nat := 0x06
def REG_RSVD2 : Nat := 0x07
def REG_MUTE : Nat := 0x08
def REG_RSVD3 : Nat := 0x09
def REG_SDEN : Nat := 0x0A
def MAX_REG : Nat := REG_SDEN
def REG_GCTL_MDIV_MASK : Nat := 0x30

/-- One-time initialization sequence, cs5368.c lines 50-54:
CP-EN / TDM format / slave clocking, mask all overflows, enable only
the TDM and _TDM pins. -/
def cs5368_reg_init : List (Nat × Nat) :=
  [(REG_GCTL, 0x8B), (REG_OVFM, 0x00), (REG_SDEN, 0x0A)]

/-- Register defaults table, cs5368.c lines 56-65. -/
def cs5368_reg_defaults : List (Nat × Nat) :=
  [(REG_REVI, 0x80), (REG_GCTL, 0x00), (REG_OVFL, 0xFF), (REG_OVFM, 0xFF),
   (REG_HPF, 0x00), (REG_PDN, 0x00), (REG_MUTE, 0x00), (REG_SDEN, 0x00)]

/-- Default value of a register address per the defaults table. -/
def defaultVal (a : Nat) : Nat := ((cs5368_reg_defaults.lookup a).getD 0)

/-- Read-blocked addresses, cs5368.c lines 67-71 (the three reserved
registers). -/
def cs5368_rd_no (a : Nat) : Bool :=
  a == REG_RSVD1 || a == REG_RSVD2 || a == REG_RSVD3

/-- Write-blocked addresses, cs5368.c lines 73-78 (revision register and
the three reserved registers). -/
def cs5368_wr_no (a : Nat) : Bool :=
  a == REG_REVI || a == REG_RSVD1 || a == REG_RSVD2 || a == REG_RSVD3

/-- Volatile addresses, cs5368.c lines 80-82 (overflow status only). -/
def cs5368_volatile_yes (a : Nat) : Bool := a == REG_OVFL

/-- An address is readable when it is in range (max_register, cs5368.c
line 105) and not in the read no-ranges table. -/
def regmap_readable (a : Nat) : Bool :=
  decide (a ≤ MAX_REG) && ! cs5368_rd_no a

/-- An address is writeable when it is in range and not in the write
no-ranges table. -/
def regmap_writeable (a : Nat) : Bool :=
  decide (a ≤ MAX_REG) && ! cs5368_wr_no a

/-- Error taxonomy.  The driver itself only ever returns -EINVAL (its
invalid-argument and unsupported-ratio rejections); the modelled regmap
layer rejects blocked addresses (ReservedAddress) and the modelled
regulator layer reports supply failures (Resource). -/
inductive Err where
  | EINVAL
  | ReservedAddress
  | Transport
  | Resource
  deriving DecidableEq

/-- A transaction transmitted on the control transport. -/
inductive Txn where
  | rd (addr : Nat)
  | wr (addr : Nat) (val : Nat)
  deriving DecidableEq

/-- State of the Register Store: the shadow cache, the cache-only
(bypass) flag, the transport-side hardware register contents and the
list of transactions transmitted so far. -/
structure RegmapState where
  cache : Nat → Nat
  cacheOnly : Bool
  hw : Nat → Nat
  log : List Txn

/-- Modelled from the spec: regmap register write (drivers/base/regmap,
not under src/).  Blocked addresses are refused before reaching the
transport; with bypass set, writes update only the shadow (the volatile
register has no shadow slot); otherwise the value is transmitted and
the shadow of a non-volatile register is updated on success. -/
def regmap_write (rm : RegmapState) (addr val : Nat) : Except Err RegmapState :=
  if regmap_writeable addr = false then .error .ReservedAddress
  else if rm.cacheOnly then
    if cs5368_volatile_yes addr then .ok rm
    else .ok { rm with cache := Function.update rm.cache addr val }
  else
    let rm1 := { rm with hw := Function.update rm.hw addr val,
                         log := rm.log ++ [Txn.wr addr val] }
    if cs5368_volatile_yes addr then .ok rm1
    else .ok { rm1 with cache := Function.update rm1.cache addr val }

/-- Modelled from the spec: regmap register read.  Blocked addresses are
refused; the volatile register is always read from the transport
regardless of bypass; any other register is served from the shadow. -/
def regmap_read (rm : RegmapState) (addr : Nat) : Except Err (Nat × RegmapState) :=
  if regmap_readable addr = false then .error .ReservedAddress
  else if cs5368_volatile_yes addr then
    .ok (rm.hw addr, { rm with log := rm.log ++ [Txn.rd addr] })
  else .ok (rm.cache addr, rm)

/-- Modelled from the spec: regmap_update_bits, a read-modify-write
restricted to the mask bits (values are 32-bit unsigned in the C
layer). -/
def regmap_update_bits (rm : RegmapState) (addr mask val : Nat) : Except Err RegmapState :=
  match regmap_read rm addr with
  | .error e => .error e
  | .ok (old, rm1) =>
      let newv := (old &&& (0xFFFFFFFF ^^^ mask)) ||| (val &&& mask)
      regmap_write rm1 addr newv

/-- Modelled from the spec: regcache_cache_only sets the bypass flag. -/
def regcache_cache_only (rm : RegmapState) (b : Bool) : RegmapState :=
  { rm with cacheOnly := b }

/-- Addresses replayed by a cache resync: every in-range address that is
writeable and not volatile, in ascending order. -/
def syncAddrs : List Nat :=
  (List.range (MAX_REG + 1)).filter (fun a => regmap_writeable a && ! cs5368_volatile_yes a)

/-- Modelled from the spec: regcache_mark_dirty followed by
regcache_sync replays the full shadow to hardware in ascending address
order, skipping blocked and volatile addresses. -/
def regcache_sync (rm : RegmapState) : RegmapState :=
  { rm with hw := fun a => if a ∈ syncAddrs then rm.cache a else rm.hw a,
            log := rm.log ++ syncAddrs.map (fun a => Txn.wr a (rm.cache a)) }

/-- Modelled from the spec: regmap_multi_reg_write applies each pair in
order via regmap_write, stopping at the first failure. -/
def regmap_multi_reg_write (rm : RegmapState) : List (Nat × Nat) → Except Err RegmapState
  | [] => .ok rm
  | (a, v) :: rest =>
      match regmap_write rm a v with
      | .error e => .error e
      | .ok rm1 => regmap_multi_reg_write rm1 rest

/-- Device instance state: the register store plus the reset line, the
supply rails, the latched master clock frequency and the TDM flag
(struct cs5368_priv, cs5368.c lines 121-127). -/
structure DevState where
  rm : RegmapState
  resetAsserted : Bool
  suppliesOn : Bool
  mclk_freq : Nat
  tdm : Bool

/-- Oversampling-speed selection inside cs5368_dai_hw_params, cs5368.c
lines 234-239: 256 below 54000 Hz, 128 below 108000 Hz, 64 above. -/
def cs5368_lrck_speed (rate : Nat) : Nat :=
  if rate < 54000 then 256 else if rate < 108000 then 128 else 64

/-- cs5368_dai_hw_params, cs5368.c lines 223-262: pick the oversampling
speed from the rate, derive the master-clock divider by two truncating
divisions, map divider 4/2/1 to code 3/1/0 (anything else is -EINVAL),
and write the code into bits 4-5 of the global-control register. -/
def cs5368_dai_hw_params (s : DevState) (rate : Nat) : DevState × Except Err Unit :=
  let lrck_speed := cs5368_lrck_speed rate
  let mclk_div := s.mclk_freq / rate / lrck_speed
  let mdiv? : Option Nat :=
    if mclk_div = 4 then some 3
    else if mclk_div = 2 then some 1
    else if mclk_div = 1 then some 0
    else none
  match mdiv? with
  | none => (s, .error .EINVAL)
  | some mdiv =>
      match regmap_update_bits s.rm REG_GCTL REG_GCTL_MDIV_MASK (mdiv <<< 4) with
      | .error e => (s, .error e)
      | .ok rm1 => ({ s with rm := rm1 }, .ok ())

/-- Modelled from the spec: ASoC DAI format encoding constants
(include/sound/soc-dai.h, not under src/).  The low nibble carries the
framing format, bits 12-15 the clock-provider role; BC_FC is the
bit-clock-consumer / frame-clock-consumer ("consumer") role. -/
def SND_SOC_DAIFMT_FORMAT_MASK : Nat := 0x000f

def SND_SOC_DAIFMT_I2S : Nat := 1

def SND_SOC_DAIFMT_DSP_A : Nat := 4

def SND_SOC_DAIFMT_CLOCK_PROVIDER_MASK : Nat := 0xf000

def SND_SOC_DAIFMT_BC_FC : Nat := 4 <<< 12

/-- cs5368_dai_set_fmt, cs5368.c lines 264-283: only the I2S and DSP_A
formats and the clock-consumer role are accepted; nothing is written. -/
def cs5368_dai_set_fmt (s : DevState) (fmt : Nat) : DevState × Except Err Unit :=
  let format_mode := fmt &&& SND_SOC_DAIFMT_FORMAT_MASK
  let clock_mode := fmt &&& SND_SOC_DAIFMT_CLOCK_PROVIDER_MASK
  if format_mode ≠ SND_SOC_DAIFMT_I2S ∧ format_mode ≠ SND_SOC_DAIFMT_DSP_A then
    (s, .error .EINVAL)
  else if clock_mode ≠ SND_SOC_DAIFMT_BC_FC then (s, .error .EINVAL)
  else (s, .ok ())

/-- cs5368_dai_set_tdm_slot, cs5368.c lines 285-306: require 8, 4 or 2
slots of width 32, then record that TDM is active; the masks are
ignored and nothing is written. -/
def cs5368_dai_set_tdm_slot (s : DevState) (tx_mask rx_mask : Nat)
    (slots slot_width : Int) : DevState × Except Err Unit :=
  if slots ≠ 8 ∧ slots ≠ 4 ∧ slots ≠ 2 then (s, .error .EINVAL)
  else if slot_width ≠ 32 then (s, .error .EINVAL)
  else ({ s with tdm := true }, .ok ())

/-- Modelled from the spec: clock-direction constant (include/sound/soc.h,
not under src/); the direction must indicate clock input. -/
def SND_SOC_CLOCK_IN : Int := 0

/-- cs5368_codec_set_sysclk, cs5368.c lines 314-328: reject any clock
direction other than input, otherwise latch the master clock
frequency. -/
def cs5368_codec_set_sysclk (s : DevState) (clk_id src_id : Int) (freq : Nat)
    (dir : Int) : DevState × Except Err Unit :=
  if dir ≠ SND_SOC_CLOCK_IN then (s, .error .EINVAL)
  else ({ s with mclk_freq := freq }, .ok ())

/-- cs5368_i2c_probe, cs5368.c lines 356-406, success path of the
resource acquisitions: the regmap starts from the defaults table with
the cache in normal mode, the cache is switched to cache-only, the
one-time init sequence is applied (landing in the shadow), the reset
GPIO is acquired driven high, and the master-clock latch and TDM flag
start zeroed (kzalloc). -/
def cs5368_i2c_probe (hw0 : Nat → Nat) : Except Err DevState :=
  let rm0 : RegmapState := { cache := defaultVal, cacheOnly := false, hw := hw0, log := [] }
  let rm1 := regcache_cache_only rm0 true
  match regmap_multi_reg_write rm1 cs5368_reg_init with
  | .error e => .error e
  | .ok rm2 =>
      .ok { rm := rm2, resetAsserted := true, suppliesOn := false,
            mclk_freq := 0, tdm := false }

/-- cs5368_pm_runtime_suspend, cs5368.c lines 408-424: switch the cache
to cache-only, assert the reset line, then disable the supplies; a
supply failure is propagated after the first two steps have already
taken effect.  The Bool argument models whether regulator_bulk_disable
succeeds. -/
def cs5368_pm_runtime_suspend (s : DevState) (disableOk : Bool) :
    DevState × Except Err Unit :=
  let s1 := { s with rm := regcache_cache_only s.rm true }
  let s2 := { s1 with resetAsserted := true }
  if disableOk then ({ s2 with suppliesOn := false }, .ok ())
  else (s2, .error .Resource)

/-- cs5368_pm_runtime_resume, cs5368.c lines 426-449: enable the
supplies (a failure aborts before anything else happens), deassert the
reset line, leave cache-only mode, then mark the cache dirty and resync
it to hardware.  The Bool argument models whether regulator_bulk_enable
succeeds; the transport itself is modelled as reliable. -/
def cs5368_pm_runtime_resume (s : DevState) (enableOk : Bool) :
    DevState × Except Err Unit :=
  if enableOk = false then (s, .error .Resource)
  else
    let s1 := { s with suppliesOn := true }
    let s2 := { s1 with resetAsserted := false }
    let s3 := { s2 with rm := regcache_cache_only s2.rm false }
    ({ s3 with rm := regcache_sync s3.rm }, .ok ())

/-- All-zero transport contents used for the concrete example device. -/
def hw0ex : Nat → Nat := fun _ => 0

/-- Fallback device state (never actually reached by the example
constructions below). -/
def devFallback : DevState :=
  { rm := { cache := fun _ => 0, cacheOnly := true, hw := hw0ex, log := [] },
    resetAsserted := true, suppliesOn := false, mclk_freq := 0, tdm := false }

/-- The device state right after a successful attach (probe) with
all-zero initial hardware contents. -/
def sAttach : DevState :=
  match cs5368_i2c_probe hw0ex with
  | .ok s => s
  | .error _ => devFallback

/-- The example device after its first power-up. -/
def sResumed : DevState := (cs5368_pm_runtime_resume sAttach true).1

/-- The example device after the host has latched a 24.576 MHz master
clock. -/
def sClocked : DevState := (cs5368_codec_set_sysclk sResumed 0 0 24576000 0).1

/-- C6: for every register-store state (hence every power state) and
every value, reads and writes of the reserved addresses 0x05, 0x07 and
0x09 fail with ReservedAddress, and a write of the read-only revision
register 0x00 is likewise rejected; each rejection happens before the
operation could produce a transaction, so nothing reaches the
transport. -/
theorem reserved_and_readonly_rejected (rm : RegmapState) (v : Nat) :
    regmap_read rm REG_RSVD1 = .error .ReservedAddress ∧
    regmap_read rm REG_RSVD2 = .error .ReservedAddress ∧
    regmap_read rm REG_RSVD3 = .error .ReservedAddress ∧
    regmap_write rm REG_RSVD1 v = .error .ReservedAddress ∧
    regmap_write rm REG_RSVD2 v = .error .ReservedAddress ∧
    regmap_write rm REG_RSVD3 v = .error .ReservedAddress ∧
    regmap_write rm REG_REVI v = .error .ReservedAddress :=
  ⟨rfl, rfl, rfl, rfl, rfl, rfl, rfl⟩

/-- C7: power_down sets cache bypass and asserts the reset line in every
case, touches no register content and no other device field, and
disables the supplies last; a supply-disable failure is propagated
while bypass and reset remain set. -/
theorem suspend_sequence_effects (s : DevState) (disableOk : Bool) :
    (cs5368_pm_runtime_suspend s disableOk).1.rm.cacheOnly = true ∧
    (cs5368_pm_runtime_suspend s disableOk).1.resetAsserted = true ∧
    (cs5368_pm_runtime_suspend s disableOk).1.rm.cache = s.rm.cache ∧
    (cs5368_pm_runtime_suspend s disableOk).1.rm.hw = s.rm.hw ∧
    (cs5368_pm_runtime_suspend s disableOk).1.rm.log = s.rm.log ∧
    (cs5368_pm_runtime_suspend s disableOk).1.mclk_freq = s.mclk_freq ∧
    (cs5368_pm_runtime_suspend s disableOk).1.tdm = s.tdm ∧
    (cs5368_pm_runtime_suspend s disableOk).1.suppliesOn
      = (if disableOk then false else s.suppliesOn) ∧
    (cs5368_pm_runtime_suspend s disableOk).2
      = (if disableOk then Except.ok () else Except.error Err.Resource) := by
  cases disableOk <;> exact ⟨rfl, rfl, rfl, rfl, rfl, rfl, rfl, rfl, rfl⟩

/-- C8: set_fmt succeeds exactly for the I2S or DSP_A format combined
with the consumer (BC_FC) clock role, fails with the driver's invalid
argument error otherwise, and in every case returns the device state
unchanged. -/
theorem set_fmt_validation (s : DevState) (fmt : Nat) :
    cs5368_dai_set_fmt s fmt =
      (s, if (fmt &&& SND_SOC_DAIFMT_FORMAT_MASK = SND_SOC_DAIFMT_I2S ∨
              fmt &&& SND_SOC_DAIFMT_FORMAT_MASK = SND_SOC_DAIFMT_DSP_A) ∧
             fmt &&& SND_SOC_DAIFMT_CLOCK_PROVIDER_MASK = SND_SOC_DAIFMT_BC_FC
          then Except.ok () else Except.error Err.EINVAL) := by
  unfold cs5368_dai_set_fmt
  by_cases h1 : fmt &&& SND_SOC_DAIFMT_FORMAT_MASK = SND_SOC_DAIFMT_I2S <;>
    by_cases h2 : fmt &&& SND_SOC_DAIFMT_FORMAT_MASK = SND_SOC_DAIFMT_DSP_A <;>
      by_cases h3 : fmt &&& SND_SOC_DAIFMT_CLOCK_PROVIDER_MASK = SND_SOC_DAIFMT_BC_FC <;>
        simp [h1, h2, h3]

/-- C9: set_tdm_slot succeeds exactly for 2, 4 or 8 slots of width 32,
in which case it only sets the tdm flag; otherwise it fails with the
driver's invalid argument error and changes nothing; and the result
never depends on the tx or rx masks. -/
theorem set_tdm_slot_validation (s : DevState) (tx rx : Nat) (slots w : Int) :
    cs5368_dai_set_tdm_slot s tx rx slots w =
      (if (slots = 2 ∨ slots = 4 ∨ slots = 8) ∧ w = 32
       then ({ s with tdm := true }, Except.ok ())
       else (s, Except.error Err.EINVAL)) ∧
    cs5368_dai_set_tdm_slot s tx rx slots w = cs5368_dai_set_tdm_slot s 0 0 slots w := by
  constructor
  · unfold cs5368_dai_set_tdm_slot
    by_cases h8 : slots = 8 <;> by_cases h4 : slots = 4 <;> by_cases h2 : slots = 2 <;>
      by_cases h32 : w = 32 <;> simp [h8, h4, h2, h32]
  · rfl

/-- Masked-update value of the global-control register: keep every bit
of the old value outside the divider mask, take bits 4-5 from the new
value (32-bit arithmetic as in the C layer). -/
def maskedGctl (old v : Nat) : Nat :=
  (old &&& (0xFFFFFFFF ^^^ 0x30)) ||| (v &&& 0x30)

/-- A masked update of the global-control register always succeeds and
produces the read-modify-write value, in the shadow alone under bypass
and in shadow, hardware and transport log otherwise. -/
theorem update_bits_gctl (rm : RegmapState) (v : Nat) :
    regmap_update_bits rm REG_GCTL REG_GCTL_MDIV_MASK v
      = .ok (if rm.cacheOnly
             then { rm with cache := Function.update rm.cache REG_GCTL (maskedGctl (rm.cache REG_GCTL) v) }
             else { rm with hw := Function.update rm.hw REG_GCTL (maskedGctl (rm.cache REG_GCTL) v),
                            log := rm.log ++ [Txn.wr REG_GCTL (maskedGctl (rm.cache REG_GCTL) v)],
                            cache := Function.update rm.cache REG_GCTL (maskedGctl (rm.cache REG_GCTL) v) }) := by
  cases hco : rm.cacheOnly <;>
    simp [regmap_update_bits, regmap_read, regmap_write, maskedGctl, hco, REG_GCTL,
          REG_GCTL_MDIV_MASK, regmap_readable, regmap_writeable, cs5368_rd_no,
          cs5368_wr_no, cs5368_volatile_yes, REG_REVI, REG_RSVD1, REG_RSVD2,
          REG_RSVD3, REG_OVFL, MAX_REG, REG_SDEN]

/-- C1: for every master clock and positive sample rate, hw_params
selects oversampling 256 below 54000 Hz, 128 from 54000 up to 108000 Hz
and 64 above; and whenever the truncating quotient of the master clock
by rate times oversampling is 1, 2 or 4, the call succeeds and writes
divider code 0, 1 or 3 respectively into bits 4-5 of the global-control
register, leaving its other bits and every other register untouched. -/
theorem hw_params_divider_select (s : DevState) (mclk rate code : Nat)
    (hm : s.mclk_freq = mclk) (hr : 0 < rate)
    (hcode : (mclk / (rate * cs5368_lrck_speed rate) = 1 ∧ code = 0) ∨
             (mclk / (rate * cs5368_lrck_speed rate) = 2 ∧ code = 1) ∨
             (mclk / (rate * cs5368_lrck_speed rate) = 4 ∧ code = 3)) :
    (rate < 54000 → cs5368_lrck_speed rate = 256) ∧
    (54000 ≤ rate → rate < 108000 → cs5368_lrck_speed rate = 128) ∧
    (108000 ≤ rate → cs5368_lrck_speed rate = 64) ∧
    (cs5368_dai_hw_params s rate).2 = Except.ok () ∧
    (cs5368_dai_hw_params s rate).1.rm.cache
      = Function.update s.rm.cache REG_GCTL
          ((s.rm.cache REG_GCTL &&& (0xFFFFFFFF ^^^ 0x30)) ||| (code <<< 4)) ∧
    (cs5368_dai_hw_params s rate).1.rm.hw
      = (if s.rm.cacheOnly = true then s.rm.hw
         else Function.update s.rm.hw REG_GCTL
           ((s.rm.cache REG_GCTL &&& (0xFFFFFFFF ^^^ 0x30)) ||| (code <<< 4))) := by
  subst hm
  have hdd : s.mclk_freq / rate / cs5368_lrck_speed rate
      = s.mclk_freq / (rate * cs5368_lrck_speed rate) := Nat.div_div_eq_div_mul _ _ _
  refine ⟨fun h => by simp only [cs5368_lrck_speed]; rw [if_pos h],
          fun h1 h2 => by simp only [cs5368_lrck_speed]; rw [if_neg (by omega), if_pos h2],
          fun h => by simp only [cs5368_lrck_speed]; rw [if_neg (by omega), if_neg (by omega)],
          ?_⟩
  have h16 : (16 : Nat) &&& 48 = 16 := rfl
  rcases hcode with ⟨hv, hc⟩ | ⟨hv, hc⟩ | ⟨hv, hc⟩ <;> subst hc <;>
    rw [← hdd] at hv <;> cases hco : s.rm.cacheOnly <;>
      simp [cs5368_dai_hw_params, hv, update_bits_gctl, hco, maskedGctl, h16]

/-- C3: for every master clock and positive sample rate whose truncating
quotient by rate times oversampling is not 1, 2 or 4, hw_params fails
with the driver's invalid argument error ("unsupported ratio") and
returns the device state, register store included, exactly as it was. -/
theorem hw_params_unsupported_div_rejected (s : DevState) (rate : Nat) (hr : 0 < rate)
    (hbad : s.mclk_freq / (rate * cs5368_lrck_speed rate) ≠ 1 ∧
            s.mclk_freq / (rate * cs5368_lrck_speed rate) ≠ 2 ∧
            s.mclk_freq / (rate * cs5368_lrck_speed rate) ≠ 4) :
    cs5368_dai_hw_params s rate = (s, Except.error Err.EINVAL) := by
  obtain ⟨h1, h2, h4⟩ := hbad
  have hdd : s.mclk_freq / rate / cs5368_lrck_speed rate
      = s.mclk_freq / (rate * cs5368_lrck_speed rate) := Nat.div_div_eq_div_mul _ _ _
  simp [cs5368_dai_hw_params, hdd, h1, h2, h4]

/-- Witness for C3 at master clock 24576000 and rate 32000, whose raw
divider is 3. -/
theorem hw_params_unsupported_div_rejected_witness :
    cs5368_dai_hw_params sClocked 32000 = (sClocked, Except.error Err.EINVAL) :=
  hw_params_unsupported_div_rejected sClocked 32000 (by decide)
    ⟨by decide, by decide, by decide⟩

/-- Witness for C1 at master clock 24576000 and rate 96000, whose raw
divider is 2, mapped to code 1. -/
theorem hw_params_divider_select_witness :
    (cs5368_dai_hw_params sClocked 96000).2 = Except.ok () ∧
    (cs5368_dai_hw_params sClocked 96000).1.rm.cache
      = Function.update sClocked.rm.cache REG_GCTL
          ((sClocked.rm.cache REG_GCTL &&& (0xFFFFFFFF ^^^ 0x30)) ||| (1 <<< 4)) :=
  ⟨(hw_params_divider_select sClocked 24576000 96000 1 rfl (by decide)
      (Or.inr (Or.inl ⟨by decide, rfl⟩))).2.2.2.1,
   (hw_params_divider_select sClocked 24576000 96000 1 rfl (by decide)
      (Or.inr (Or.inl ⟨by decide, rfl⟩))).2.2.2.2.1⟩

/-- C10: a freshly attached device has master clock latch 0, and for
every device state whose latch is still 0 and every positive rate,
hw_params fails (the computed divider is 0) and leaves the device state
exactly as it was. -/
theorem hw_params_without_sysclk_fails :
    (∀ hw0 : Nat → Nat, ∃ s0, cs5368_i2c_probe hw0 = .ok s0 ∧ s0.mclk_freq = 0) ∧
    (∀ s : DevState, ∀ rate : Nat, s.mclk_freq = 0 → 0 < rate →
      cs5368_dai_hw_params s rate = (s, Except.error Err.EINVAL)) := by
  constructor
  · intro hw0; exact ⟨_, rfl, rfl⟩
  · intro s rate hm hr
    have hz : s.mclk_freq / rate / cs5368_lrck_speed rate = 0 := by
      rw [hm]; simp
    simp [cs5368_dai_hw_params, hz]

/-- Witness for C10 on the example device before any sysclk call, at
rate 48000. -/
theorem hw_params_without_sysclk_fails_witness :
    cs5368_dai_hw_params sResumed 48000 = (sResumed, Except.error Err.EINVAL) :=
  hw_params_without_sysclk_fails.2 sResumed 48000 rfl (by decide)

/-- C4: a successful power_down followed by a successful power_up
leaves the whole shadow (in particular every non-volatile, non-reserved
register) exactly as it was; and after the very first power_up
following attach, the hardware registers hold the one-time
initialization values replayed from the shadow: global control 0x8B,
overflow mask 0x00, pin-enable 0x0A. -/
theorem power_cycle_shadow_preserved :
    (∀ s : DevState,
      ((cs5368_pm_runtime_resume (cs5368_pm_runtime_suspend s true).1 true).1).rm.cache
        = s.rm.cache) ∧
    (∀ hw0 : Nat → Nat, ∃ s0, cs5368_i2c_probe hw0 = .ok s0 ∧
      (cs5368_pm_runtime_resume s0 true).1.rm.hw REG_GCTL = 0x8B ∧
      (cs5368_pm_runtime_resume s0 true).1.rm.hw REG_OVFM = 0x00 ∧
      (cs5368_pm_runtime_resume s0 true).1.rm.hw REG_SDEN = 0x0A) := by
  constructor
  · intro s; rfl
  · intro hw0; exact ⟨_, rfl, rfl, rfl, rfl⟩

/-- C5 counterexample: address 0x02 (overflow status) is a non-reserved
writable address, yet with bypass set a write of 0x12 to it, while
indeed generating no transport transaction, is not reflected by the
subsequent read, which goes to the transport and yields 0. -/
theorem bypass_volatile_read_not_written :
    cs5368_wr_no REG_OVFL = false ∧
    regmap_writeable REG_OVFL = true ∧
    sAttach.rm.cacheOnly = true ∧
    ∃ rm1, regmap_write sAttach.rm REG_OVFL 0x12 = .ok rm1 ∧
      rm1.log = sAttach.rm.log ∧ rm1.hw = sAttach.rm.hw ∧
      regmap_read rm1 REG_OVFL
        = .ok (0, { rm1 with log := rm1.log ++ [Txn.rd REG_OVFL] }) ∧
      (0 : Nat) ≠ 0x12 := by
  refine ⟨rfl, rfl, rfl, _, rfl, rfl, rfl, rfl, by decide⟩

/-- C5 amended: for every non-reserved, non-volatile writable address
and every value, a write issued under bypass succeeds, generates no
transport transaction (log and hardware unchanged), and a subsequent
read of the same address returns the value just written. -/
theorem bypass_write_then_read (rm : RegmapState) (a v : Nat)
    (hb : rm.cacheOnly = true) (hwOk : regmap_writeable a = true)
    (hnv : cs5368_volatile_yes a = false) :
    ∃ rm1, regmap_write rm a v = .ok rm1 ∧ rm1.log = rm.log ∧ rm1.hw = rm.hw ∧
      regmap_read rm1 a = .ok (v, rm1) := by
  have hrd : regmap_readable a = true := by
    simp [regmap_writeable, cs5368_wr_no, REG_REVI, REG_RSVD1, REG_RSVD2,
          REG_RSVD3, MAX_REG, REG_SDEN] at hwOk
    simp [regmap_readable, cs5368_rd_no, REG_RSVD1, REG_RSVD2, REG_RSVD3,
          MAX_REG, REG_SDEN]
    omega
  refine ⟨{ rm with cache := Function.update rm.cache a v }, ?_, rfl, rfl, ?_⟩
  · simp [regmap_write, hwOk, hb, hnv]
  · simp [regmap_read, hrd, hnv, Function.update_same]

/-- Witness for C5 (amended) at the high-pass-filter register 0x04
with value 0x55 on the freshly attached (bypassed) example device. -/
theorem bypass_write_then_read_witness :
    ∃ rm1, regmap_write sAttach.rm REG_HPF 0x55 = .ok rm1 ∧
      rm1.log = sAttach.rm.log ∧ rm1.hw = sAttach.rm.hw ∧
      regmap_read rm1 REG_HPF = .ok (0x55, rm1) :=
  bypass_write_then_read sAttach.rm REG_HPF 0x55 rfl rfl rfl

/-- C2 counterexample: with the 24.576 MHz master clock latched, the
stream configuration at 32000 Hz does not succeed with divider code 0
as claimed but fails (raw divider 3), and at 48000 Hz the divider field
written into the global-control register is code 1 (bits 4-5 equal
0x10), not the claimed code 0. -/
theorem standard_rates_claim_false :
    sClocked.mclk_freq = 24576000 ∧
    (cs5368_dai_hw_params sClocked 32000).2 = Except.error Err.EINVAL ∧
    (cs5368_dai_hw_params sClocked 32000).2 ≠ Except.ok () ∧
    (cs5368_dai_hw_params sClocked 48000).1.rm.cache REG_GCTL &&& 0x30 = 0x10 :=
  ⟨rfl, rfl, fun h => Except.noConfusion h, rfl⟩

/-- C2 amended: with master_clock_hz = 24576000, rates 44100, 48000,
96000 and 192000 select oversampling 256, 256, 128, 64, all reduce to
raw divider 2 and succeed writing divider code 1, while rate 32000
selects oversampling 256, reduces to raw divider 3 and fails. -/
theorem standard_rates_divider_values :
    sClocked.mclk_freq = 24576000 ∧
    cs5368_lrck_speed 32000 = 256 ∧ 24576000 / (32000 * 256) = 3 ∧
    (cs5368_dai_hw_params sClocked 32000).2 = Except.error Err.EINVAL ∧
    cs5368_lrck_speed 44100 = 256 ∧ 24576000 / (44100 * 256) = 2 ∧
    (cs5368_dai_hw_params sClocked 44100).2 = Except.ok () ∧
    (cs5368_dai_hw_params sClocked 44100).1.rm.cache REG_GCTL &&& 0x30 = 0x10 ∧
    cs5368_lrck_speed 48000 = 256 ∧ 24576000 / (48000 * 256) = 2 ∧
    (cs5368_dai_hw_params sClocked 48000).2 = Except.ok () ∧
    (cs5368_dai_hw_params sClocked 48000).1.rm.cache REG_GCTL &&& 0x30 = 0x10 ∧
    cs5368_lrck_speed 96000 = 128 ∧ 24576000 / (96000 * 128) = 2 ∧
    (cs5368_dai_hw_params sClocked 96000).2 = Except.ok () ∧
    (cs5368_dai_hw_params sClocked 96000).1.rm.cache REG_GCTL &&& 0x30 = 0x10 ∧
    cs5368_lrck_speed 192000 = 64 ∧ 24576000 / (192000 * 64) = 2 ∧
    (cs5368_dai_hw_params sClocked 192000).2 = Except.ok () ∧
    (cs5368_dai_hw_params sClocked 192000).1.rm.cache REG_GCTL &&& 0x30 = 0x10 :=
  ⟨rfl, rfl, rfl, rfl, rfl, rfl, rfl, rfl, rfl, rfl,
   rfl, rfl, rfl, rfl, rfl, rfl, rfl, rfl, rfl, rfl⟩

end CS5368
